import Mathlib

/-!
Verification development for the `release` package of ecm-distro-tools
(release notes generation and GitHub release-asset management).

The Go code is shallowly embedded: strings are Lean `String`s (lists of
characters; all inputs exercised by the development are ASCII, where Go's
byte indices and rune indices coincide), the network and the GitHub client
are passed in as explicit function parameters, and a Go runtime panic
(out-of-range index, nil-pointer dereference) is modelled by `Option.none`
wrapped around the function's result.
-/

namespace EcmRelease

/-! ### Go string primitives

Models of the `strings` standard-library functions the package uses:
`strings.Index`, `strings.Contains`, `strings.Replace(s, old, new, -1)`,
`strings.Split`, and the line splitting performed by `bufio.Scanner`.
-/

/-- Whether `p` is a prefix of `s` (character lists). -/
def startsWithL : List Char → List Char → Bool
  | [], _ => true
  | _ :: _, [] => false
  | p :: ps, c :: cs => p == c && startsWithL ps cs

/-- Models `strings.Index(s, sub)` (first index of `sub` in `s`, `none` when
absent).  Index counts characters; on ASCII input this agrees with Go's byte
index. -/
def firstIdxOfSub (sub : List Char) : List Char → Option Nat
  | [] => if startsWithL sub [] then some 0 else none
  | c :: rest =>
    if startsWithL sub (c :: rest) then some 0
    else (firstIdxOfSub sub rest).map (· + 1)

/-- Models `strings.Contains(s, sub)`. -/
def containsL (s sub : List Char) : Bool :=
  (firstIdxOfSub sub s).isSome

/-- Models `strings.Contains` on `String`. -/
def containsStr (s sub : String) : Bool :=
  containsL s.data sub.data

/-- Fuel-driven worker for `strings.Replace(s, old, new, -1)`: replaces
non-overlapping occurrences left to right.  One unit of fuel is spent per
step and every step consumes at least one character, so fuel `s.length`
is enough. -/
def replaceAllGo : Nat → List Char → List Char → List Char → List Char
  | 0, s, _, _ => s
  | fuel + 1, s, old, new =>
    match s with
    | [] => []
    | c :: rest =>
      if startsWithL old (c :: rest) && !old.isEmpty then
        new ++ replaceAllGo fuel ((c :: rest).drop old.length) old new
      else
        c :: replaceAllGo fuel rest old new

/-- Models `strings.Replace(s, old, new, -1)` (all uses in the package have a
non-empty `old`). -/
def goReplaceAll (s old new : String) : String :=
  String.mk (replaceAllGo s.data.length s.data old.data new.data)

/-- Fuel-driven worker for `strings.Split`. -/
def splitGoAux : Nat → List Char → List Char → List Char → List (List Char)
  | _, _, [], acc => [acc.reverse]
  | 0, _, s, acc => [acc.reverse ++ s]
  | fuel + 1, sep, c :: rest, acc =>
    if startsWithL sep (c :: rest) && !sep.isEmpty then
      acc.reverse :: splitGoAux fuel sep ((c :: rest).drop sep.length) []
    else
      splitGoAux fuel sep rest (c :: acc)

/-- Models `strings.Split(s, sep)` for a non-empty separator. -/
def splitGo (s sep : List Char) : List (List Char) :=
  splitGoAux s.length sep s []

/-- `strings.Split` on `String`. -/
def goSplitS (s sep : String) : List String :=
  (splitGo s.data sep.data).map String.mk

/-- Drops a trailing carriage return, as `bufio.ScanLines` does per line. -/
def dropTrailingCR (l : List Char) : List Char :=
  match l.getLast? with
  | some c => if c = '\r' then l.dropLast else l
  | none => l

/-- Models the lines produced by `bufio.Scanner` with `ScanLines`: split on
newline, no token for empty input, no empty final token after a trailing
newline, trailing carriage returns removed. -/
def goLines (s : String) : List String :=
  if s.data = [] then []
  else
    let parts := splitGo s.data ['\n']
    let parts :=
      match parts.getLast? with
      | some [] => parts.dropLast
      | _ => parts
    parts.map (fun l => String.mk (dropTrailingCR l))

/-! ### Helpers of the release package -/

/-- Models `unicode.IsLetter` (faithful on the ASCII inputs exercised here). -/
def goIsLetter (c : Char) : Bool := c.isAlpha

/-- Models `unicode.ToUpper` (faithful on ASCII). -/
def goToUpper (c : Char) : Char := c.toUpper

/-- Worker for `capitalize`: upper-cases the first letter character and
leaves everything else unchanged (the Go loop over the rune slice with
`break` after the first letter). -/
def capitalizeAux : List Char → List Char
  | [] => []
  | c :: rest =>
    if goIsLetter c then goToUpper c :: rest
    else c :: capitalizeAux rest

/-- `capitalize` from the source: returns a new string whose first letter is
capitalized. -/
def capitalize (s : String) : String :=
  String.mk (capitalizeAux s.data)

/-- `trimPeriods` from the source: `strings.Replace(v, ".", "", -1)`. -/
def trimPeriods (v : String) : String :=
  goReplaceAll v "." ""

/-- Numeric component check used by the semantic-version model below:
non-empty, all digits, no leading zero. -/
def semverNumOK (l : List Char) : Bool :=
  !l.isEmpty && l.all Char.isDigit && (l.length == 1 || l.headD '0' != '0')

/-- Modelled from the spec: `golang.org/x/mod/semver.MajorMinor` (external
library, not part of this repository), the helper behind the template
function `majMin` — "extract-major-minor-from-semver (fails the whole render
if the input is not a parseable semantic version)".  Returns `"vMAJOR.MINOR"`
when the input is a `v`-prefixed semantic version, `""` otherwise. -/
def semverMajorMinor (v : String) : String :=
  match v.data with
  | 'v' :: rest =>
    let core := rest.takeWhile (fun c => c != '-' && c != '+')
    match splitGo core ['.'] with
    | [maj] =>
      if semverNumOK maj then String.mk ('v' :: maj) ++ ".0" else ""
    | [maj, minr] =>
      if semverNumOK maj && semverNumOK minr then
        String.mk ('v' :: maj) ++ "." ++ String.mk minr
      else ""
    | [maj, minr, patch] =>
      if semverNumOK maj && semverNumOK minr && semverNumOK patch then
        String.mk ('v' :: maj) ++ "." ++ String.mk minr
      else ""
    | _ => ""
  | _ => ""

/-- `majMin` from the source: errors with "version is not valid" when
`semver.MajorMinor` returns the empty string. -/
def majMin (v : String) : Except String String :=
  if semverMajorMinor v = "" then Except.error "version is not valid"
  else Except.ok (semverMajorMinor v)

/-! ### Pattern extractor (`findInURL`) and source-specific resolvers

The network (`http.Get` + status check + `ioutil.ReadAll`) is abstracted as
`fetch : String → Option String` (URL to body; `none` covers network error,
non-200 status and read error, all of which make the Go code return `nil` /
`""`).  The regexp engine (`regexp.MustCompile(...).FindStringSubmatch`) is
abstracted as `matchRegex : String → String → List String` (pattern and line
to submatch slice, `[]` for Go's `nil`).
-/

/-- Worker of `findInURL`'s scan loop: `submatch` is the mutable variable of
the Go code.  A line containing `str` either gets appended verbatim (empty
regex mode) or has the regex applied; a submatch slice longer than one is
returned immediately, otherwise the variable is overwritten and the scan
continues. -/
def findInTextAux (matchRegex : String → String → List String)
    (regex str : String) : List String → List String → List String
  | [], submatch => submatch
  | line :: rest, submatch =>
    if containsStr line str then
      if regex = "" then
        findInTextAux matchRegex regex str rest (submatch ++ [line])
      else
        let sm := matchRegex regex line
        if sm.length > 1 then sm
        else findInTextAux matchRegex regex str rest sm
    else
      findInTextAux matchRegex regex str rest submatch

/-- The scan `findInURL` performs on a fetched body. -/
def findInText (matchRegex : String → String → List String)
    (regex str text : String) : List String :=
  findInTextAux matchRegex regex str (goLines text) []

/-- `findInURL` from the source: fetch the URL and scan it line by line for
a submatch of `regex` on the lines containing `str`. -/
def findInURL (fetch : String → Option String)
    (matchRegex : String → String → List String)
    (url regex str : String) : List String :=
  match fetch url with
  | none => []
  | some body => findInText matchRegex regex str body

/-- A `replace` directive of a parsed go.mod file (`modfile.Replace`):
`Old.Path` and `New.Version`. -/
structure ModReplace where
  oldPath : String
  newVersion : String
  deriving DecidableEq

/-- A `require` directive of a parsed go.mod file (`modfile.Require`):
`Mod.Path` and `Mod.Version`. -/
structure ModRequire where
  path : String
  version : String
  deriving DecidableEq

/-- A parsed go.mod file (the parts of `modfile.File` the code reads). -/
structure ModFile where
  replace : List ModReplace
  require : List ModRequire
  deriving DecidableEq

/-- The go.mod URL built by `goModLibVersion`. -/
def goModURL (repo branchVersion : String) : String :=
  "https://raw.githubusercontent.com/" ++
    (if repo = "rke2" then "rancher/rke2" else "k3s-io/k3s") ++
    "/" ++ branchVersion ++ "/go.mod"

/-- The selection `goModLibVersion` performs on a parsed mod file: the first
`replace` entry whose old path contains `libraryName` wins; only if none
matches is `require` searched; otherwise `""`. -/
def goModSelect (mf : ModFile) (libraryName : String) : String :=
  match mf.replace.find? (fun r => containsStr r.oldPath libraryName) with
  | some r => r.newVersion
  | none =>
    match mf.require.find? (fun q => containsStr q.path libraryName) with
    | some q => q.version
    | none => ""

/-- `goModLibVersion` from the source.  `fetchParse` abstracts the fetch of
the go.mod URL followed by `modfile.Parse` (`none` for fetch, read or parse
failure, each of which makes the Go code return `""`). -/
def goModLibVersion (fetchParse : String → Option ModFile)
    (libraryName repo branchVersion : String) : String :=
  match fetchParse (goModURL repo branchVersion) with
  | none => ""
  | some mf => goModSelect mf libraryName

/-- `buildScriptVersion` from the source. -/
def buildScriptVersion (fetch : String → Option String)
    (matchRegex : String → String → List String)
    (varName repo branchVersion : String) : String :=
  let repoName := if repo = "rke2" then "rancher/rke2" else "k3s-io/k3s"
  let url := "https://raw.githubusercontent.com/" ++ repoName ++ "/" ++
    branchVersion ++ "/scripts/version.sh"
  let submatch := findInURL fetch matchRegex url
    "(?P<version>v[\\d\\.]+(-k3s.\\w*)?)" varName
  if submatch.length > 1 then submatch.getD 1 "" else ""

/-- `dockerfileVersion` from the source: returns `""` immediately when the
repository name contains "k3s". -/
def dockerfileVersion (fetch : String → Option String)
    (matchRegex : String → String → List String)
    (chartName repo branchVersion : String) : String :=
  if containsStr repo "k3s" then ""
  else
    let url := "https://raw.githubusercontent.com/rancher/rke2/" ++
      branchVersion ++ "/Dockerfile"
    let submatch := findInURL fetch matchRegex url
      "(?:FROM|RUN)\\s(?:CHART_VERSION=\\\"|[\\w-]+/[\\w-]+:)(?P<version>.*?)([0-9][0-9])?(-build.*)?\\\"?\\s"
      chartName
    if submatch.length > 1 then submatch.getD 1 "" else ""

/-- `imageTagVersion` from the source: when the captured version contains
"-build", it is split on "-" and the first piece is returned. -/
def imageTagVersion (fetch : String → Option String)
    (matchRegex : String → String → List String)
    (ImageName repo branchVersion : String) : String :=
  let url :=
    if repo = "rke2" then
      "https://raw.githubusercontent.com/rancher/rke2/" ++ branchVersion ++
        "/scripts/build-images"
    else
      "https://raw.githubusercontent.com/k3s-io/k3s/" ++ branchVersion ++
        "/scripts/airgap/image-list.txt"
  let submatch := findInURL fetch matchRegex url ":(.*)(-build.*)?" ImageName
  if submatch.length > 1 then
    let v := submatch.getD 1 ""
    if containsStr v "-build" then (goSplitS v "-").headD "" else v
  else ""

/-- `sqliteVersionBinding` from the source (the package-level function that
scrapes `sqlite3-binding.h` at the given go-sqlite3 version). -/
def sqliteVersionBindingOf (fetch : String → Option String)
    (matchRegex : String → String → List String)
    (sqliteVersion : String) : String :=
  let url := "https://raw.githubusercontent.com/mattn/go-sqlite3/" ++
    sqliteVersion ++ "/sqlite3-binding.h"
  let submatch := findInURL fetch matchRegex url "\\\"(.*)\\\"" "SQLITE_VERSION"
  if submatch.length > 1 then submatch.getD 1 "" else ""

/-- `FindStringSubmatch` of the constant pattern `:(.*)(-build.*)?` used by
`imageTagVersion`: the match starts at the first colon of the line, the
first (greedy) group captures everything after that colon to the end of the
line, and the optional second group is left empty, reported as `""` in the
submatch slice. -/
def imageListSubmatch (line : String) : List String :=
  match firstIdxOfSub [':'] line.data with
  | none => []
  | some idx =>
    [String.mk (line.data.drop idx), String.mk (line.data.drop (idx + 1)), ""]

/-- Regexp engine instance that interprets exactly the image-list pattern
(and reports no match for any other pattern). -/
def goImageRegexFn (regex line : String) : List String :=
  if regex = ":(.*)(-build.*)?" then imageListSubmatch line else []

/-! ### Release asset manager

The GitHub client is abstracted as
`get : String → String → String → GetReleaseResult`
(org, repo, tag — modelling `client.Repositories.GetReleaseByTag`) and
`deleteAsset : String → String → Int → Except GoErr Unit`
(org, repo, asset id — modelling `client.Repositories.DeleteReleaseAsset`).
`repository.OrgFromRepo` lives in a different package and is likewise a
parameter.  Go maps are association lists with overwriting insert.
-/

/-- A release asset (`github.ReleaseAsset`; only the ID is read). -/
structure ReleaseAsset where
  id : Int
  deriving DecidableEq

/-- A release (`github.RepositoryRelease`; only `Assets` is read). -/
structure RepositoryRelease where
  assets : List ReleaseAsset
  deriving DecidableEq

/-- Outcome of `GetReleaseByTag`: a release, a `*github.ErrorResponse`
carrying an HTTP status, or any other error value. -/
inductive GetReleaseResult where
  | found (release : RepositoryRelease)
  | errorResponse (status : Nat)
  | otherError (msg : String)
  deriving DecidableEq

/-- An error value surfaced by the asset manager. -/
inductive GoErr where
  | errResp (status : Nat)
  | other (msg : String)
  deriving DecidableEq

/-- A `map[string]bool`. -/
abbrev GoMap := List (String × Bool)

/-- Go map insertion (`m[k] = v`). -/
def mapSet (m : GoMap) (k : String) (v : Bool) : GoMap :=
  match m with
  | [] => [(k, v)]
  | (k', v') :: rest => if k' = k then (k, v) :: rest else (k', v') :: mapSet rest k v

/-- Go map lookup. -/
def mapGet (m : GoMap) (k : String) : Option Bool :=
  match m with
  | [] => none
  | (k', v') :: rest => if k' = k then some v' else mapGet rest k

/-- Whether a `GetReleaseByTag` outcome makes the batch loops abort (an
error response with a status other than 404, or a non-`ErrorResponse`
error). -/
def isAborting : GetReleaseResult → Bool
  | .found _ => false
  | .errorResponse status => status != 404
  | .otherError _ => true

/-- The error an aborting outcome is surfaced as. -/
def abortErr : GetReleaseResult → GoErr
  | .found _ => .other ""
  | .errorResponse status => .errResp status
  | .otherError msg => .other msg

/-- Whether the outcome is a release. -/
def releaseFound : GetReleaseResult → Bool
  | .found _ => true
  | _ => false

/-- `Except.isOk`. -/
def exceptIsOk : Except GoErr GoMap → Bool
  | .ok _ => true
  | .error _ => false

/-- Looks a tag up in a successful result map (`none` when the whole batch
errored or the tag has no entry). -/
def okGet (r : Except GoErr GoMap) (tag : String) : Option Bool :=
  match r with
  | .ok m => mapGet m tag
  | .error _ => none

/-- The tag loop of `CheckUpstreamRelease`: a 404 records `false`, any other
error aborts, a release records `true`. -/
def checkUpstreamReleaseLoop (get : String → String → String → GetReleaseResult)
    (org repo : String) : List String → GoMap → Except GoErr GoMap
  | [], releases => .ok releases
  | tag :: rest, releases =>
    match get org repo tag with
    | .found _ =>
      checkUpstreamReleaseLoop get org repo rest (mapSet releases tag true)
    | .errorResponse status =>
      if status ≠ 404 then .error (.errResp status)
      else checkUpstreamReleaseLoop get org repo rest (mapSet releases tag false)
    | .otherError msg => .error (.other msg)

/-- `CheckUpstreamRelease` from the source. -/
def CheckUpstreamRelease (get : String → String → String → GetReleaseResult)
    (org repo : String) (tags : List String) : Except GoErr GoMap :=
  checkUpstreamReleaseLoop get org repo tags []

/-- The tag loop of `VerifyAssets`: empty tags are skipped, a 404 records
`false`, another error aborts, and a release records `true` only when the
asset count matches the expectation of the repository's family — otherwise
nothing is recorded for the tag. -/
def verifyAssetsLoop (get : String → String → String → GetReleaseResult)
    (org repo : String) : List String → GoMap → Except GoErr GoMap
  | [], releases => .ok releases
  | tag :: rest, releases =>
    if tag = "" then verifyAssetsLoop get org repo rest releases
    else
      match get org repo tag with
      | .errorResponse status =>
        if status ≠ 404 then .error (.errResp status)
        else verifyAssetsLoop get org repo rest (mapSet releases tag false)
      | .otherError msg => .error (.other msg)
      | .found release =>
        let r1 := if repo = "rke2" ∧ release.assets.length = 50 then
          mapSet releases tag true else releases
        let r2 := if repo = "k3s" ∧ release.assets.length = 18 then
          mapSet r1 tag true else r1
        let r3 := if repo = "rke2-packing" ∧ release.assets.length = 23 then
          mapSet r2 tag true else r2
        verifyAssetsLoop get org repo rest r3

/-- `VerifyAssets` from the source. -/
def VerifyAssets (orgFromRepo : String → Except GoErr String)
    (get : String → String → String → GetReleaseResult)
    (repo : String) (tags : List String) : Except GoErr GoMap :=
  if tags.length = 0 then .error (.other "no tags provided")
  else
    match orgFromRepo repo with
    | .error e => .error e
    | .ok org => verifyAssetsLoop get org repo tags []

/-- `ListAssets` from the source.  On a 404 the error switch falls through
without returning and `release.Assets` dereferences the nil release pointer:
that runtime panic is the `none` result. -/
def ListAssets (orgFromRepo : String → Except GoErr String)
    (get : String → String → String → GetReleaseResult)
    (repo tag : String) : Option (Except GoErr (List ReleaseAsset)) :=
  match orgFromRepo repo with
  | .error e => some (.error e)
  | .ok org =>
    if tag = "" then some (.error (.other "invalid tag provided"))
    else
      match get org repo tag with
      | .found release => some (.ok release.assets)
      | .errorResponse status =>
        if status ≠ 404 then some (.error (.errResp status)) else none
      | .otherError msg => some (.error (.other msg))

/-- The deletion loop of `DeleteAssetsByRelease`: sequential, aborting on the
first failed deletion. -/
def deleteAssetsLoop (deleteAsset : String → String → Int → Except GoErr Unit)
    (org repo : String) : List ReleaseAsset → Except GoErr Unit
  | [] => .ok ()
  | a :: rest =>
    match deleteAsset org repo a.id with
    | .error e => .error e
    | .ok _ => deleteAssetsLoop deleteAsset org repo rest

/-- `DeleteAssetsByRelease` from the source.  As in `ListAssets`, a 404
falls through the error switch and `release.Assets` dereferences the nil
release pointer (`none`). -/
def DeleteAssetsByRelease (orgFromRepo : String → Except GoErr String)
    (get : String → String → String → GetReleaseResult)
    (deleteAsset : String → String → Int → Except GoErr Unit)
    (repo tag : String) : Option (Except GoErr Unit) :=
  match orgFromRepo repo with
  | .error e => some (.error e)
  | .ok org =>
    if tag = "" then some (.error (.other "invalid tag provided"))
    else
      match get org repo tag with
      | .found release => some (deleteAssetsLoop deleteAsset org repo release.assets)
      | .errorResponse status =>
        if status ≠ 404 then some (.error (.errResp status)) else none
      | .otherError msg => some (.error (.other msg))

/-! ### Template renderer

The three `text/template` templates (`changelog`, `rke2`, `k3s`) are
embedded as rendering functions: the static text between actions is kept
verbatim (including the `\x7b\x7b-`/`-\x7d\x7d` whitespace trimming of the
Go template engine, applied once and for all since the templates are
constants), `\x7b\x7b.field\x7d\x7d` actions become field reads, and the
`majMin` helper — the one helper that can fail — makes the `rke2` template's
execution `Except`-valued. -/

/-- A changelog entry (`repository.ChangeLog`): title, issue number, URL
and a multi-line note. -/
structure ChangelogEntry where
  Title : String
  Number : Int
  URL : String
  Note : String
  deriving DecidableEq

/-- The rendering context `GenReleaseNotes` passes to the template engine
(the `map[string]interface\x7b\x7d` literal, one field per key). -/
structure RenderContext where
  milestone : String
  prevMilestone : String
  changeLogSince : String
  content : List ChangelogEntry
  k8sVersion : String
  changeLogVersion : String
  majorMinor : String
  EtcdVersionRKE2 : String
  EtcdVersionK3S : String
  ContainerdVersionK3S : String
  ContainerdVersionGoMod : String
  ContainerdVersionRKE2 : String
  RuncVersionGoMod : String
  RuncVersionBuildScript : String
  RuncVersionRKE2 : String
  CNIPluginsVersion : String
  MetricsServerVersion : String
  TraefikVersion : String
  CoreDNSVersion : String
  IngressNginxVersion : String
  HelmControllerVersion : String
  FlannelVersionRKE2 : String
  FlannelVersionK3S : String
  CalicoVersion : String
  CanalCalicoVersion : String
  CiliumVersion : String
  MultusVersion : String
  KineVersion : String
  SQLiteVersion : String
  SQLiteVersionReplaced : String
  LocalPathProvisionerVersion : String
  deriving DecidableEq, Inhabited

/-- One changelog bullet: the title line followed by one indented sub-bullet
per non-empty line of the note, everything capitalized. -/
def renderChangelogEntry (e : ChangelogEntry) : String :=
  "\n* " ++ capitalize e.Title ++ " [(#" ++ toString e.Number ++ ")](" ++
    e.URL ++ ")" ++
  String.join ((goSplitS e.Note "\n").map (fun line =>
    if line = "" then "" else "\n  * " ++ capitalize line))

/-- The `changelog` template. -/
def renderChangelog (prevMilestone : String) (content : List ChangelogEntry) :
    String :=
  "## Changes since " ++ prevMilestone ++ ":\n" ++
    String.join (content.map renderChangelogEntry)

/-- The `k3s` template (no fallible helper occurs in it, so its execution
always succeeds). -/
def renderK3s (ctx : RenderContext) : String :=
  "<!-- " ++ ctx.milestone ++ " -->\n" ++
  "This release updates Kubernetes to " ++ ctx.k8sVersion ++
    ", and fixes a number of issues.\n\n" ++
  "For more details on what\x27s new, see the [Kubernetes release notes](https://github.com/kubernetes/kubernetes/blob/master/CHANGELOG/CHANGELOG-" ++
    ctx.majorMinor ++ ".md#changelog-since-" ++ ctx.changeLogSince ++ ").\n\n" ++
  renderChangelog ctx.prevMilestone ctx.content ++
  "\n\n## Embedded Component Versions\n| Component | Version |\n|---|---|\n| Kubernetes | [" ++
    ctx.k8sVersion ++ "](https://github.com/kubernetes/kubernetes/blob/master/CHANGELOG/CHANGELOG-" ++
    ctx.majorMinor ++ ".md#" ++ ctx.changeLogVersion ++ ") |\n" ++
  "| Kine | [" ++ ctx.KineVersion ++ "](https://github.com/k3s-io/kine/releases/tag/" ++
    ctx.KineVersion ++ ") |\n" ++
  "| SQLite | [" ++ ctx.SQLiteVersion ++ "](https://sqlite.org/releaselog/" ++
    ctx.SQLiteVersionReplaced ++ ".html) |\n" ++
  "| Etcd | [" ++ ctx.EtcdVersionK3S ++ "](https://github.com/k3s-io/etcd/releases/tag/" ++
    ctx.EtcdVersionK3S ++ ") |" ++
  (if ctx.majorMinor = "1.23" then
    "\n| Containerd | [" ++ ctx.ContainerdVersionGoMod ++
      "](https://github.com/k3s-io/containerd/releases/tag/" ++
      ctx.ContainerdVersionGoMod ++ ") |\n| Runc | [" ++
      ctx.RuncVersionBuildScript ++
      "](https://github.com/opencontainers/runc/releases/tag/" ++
      ctx.RuncVersionBuildScript ++ ") |"
  else
    "\n| Containerd | [" ++ ctx.ContainerdVersionK3S ++
      "](https://github.com/k3s-io/containerd/releases/tag/" ++
      ctx.ContainerdVersionK3S ++ ") |\n| Runc | [" ++
      ctx.RuncVersionGoMod ++
      "](https://github.com/opencontainers/runc/releases/tag/" ++
      ctx.RuncVersionGoMod ++ ") |") ++
  "\n| Flannel | [" ++ ctx.FlannelVersionK3S ++
    "](https://github.com/flannel-io/flannel/releases/tag/" ++
    ctx.FlannelVersionK3S ++ ") | \n" ++
  "| Metrics-server | [" ++ ctx.MetricsServerVersion ++
    "](https://github.com/kubernetes-sigs/metrics-server/releases/tag/" ++
    ctx.MetricsServerVersion ++ ") |\n" ++
  "| Traefik | [v" ++ ctx.TraefikVersion ++
    "](https://github.com/traefik/traefik/releases/tag/v" ++
    ctx.TraefikVersion ++ ") |\n" ++
  "| CoreDNS | [v" ++ ctx.CoreDNSVersion ++
    "](https://github.com/coredns/coredns/releases/tag/v" ++
    ctx.CoreDNSVersion ++ ") | \n" ++
  "| Helm-controller | [" ++ ctx.HelmControllerVersion ++
    "](https://github.com/k3s-io/helm-controller/releases/tag/" ++
    ctx.HelmControllerVersion ++ ") |\n" ++
  "| Local-path-provisioner | [" ++ ctx.LocalPathProvisionerVersion ++
    "](https://github.com/rancher/local-path-provisioner/releases/tag/" ++
    ctx.LocalPathProvisionerVersion ++ ") |\n" ++
  "\n## Helpful Links\nAs always, we welcome and appreciate feedback from our community of users. Please feel free to:\n- [Open issues here](https://github.com/rancher/k3s/issues/new/choose)\n- [Join our Slack channel](https://slack.rancher.io/)\n- [Check out our documentation](https://rancher.com/docs/k3s/latest/en/) for guidance on how to get started or to dive deep into K3s.\n- [Read how you can contribute here](https://github.com/rancher/k3s/blob/master/CONTRIBUTING.md)\n"

/-- The `rke2` template.  Its two `majMin` helper calls are the only
fallible actions; they are evaluated in document order. -/
def renderRKE2 (ctx : RenderContext) : Except String String := do
  let canalMM ← majMin ctx.CanalCalicoVersion
  let calicoMM ← majMin ctx.CalicoVersion
  return "<!-- " ++ ctx.milestone ++
    " -->\n\nThis release ... <FILL ME OUT!>\n\n**Important Note**\n\nIf your server (control-plane) nodes were not started with the `--token` CLI flag or config file key, a randomized token was generated during initial cluster startup. This key is used both for joining new nodes to the cluster, and for encrypting cluster bootstrap data within the datastore. Ensure that you retain a copy of this token, as is required when restoring from backup.\n\nYou may retrieve the token value from any server already joined to the cluster:\n```bash\ncat /var/lib/rancher/rke2/server/token\n```\n\n" ++
    renderChangelog ctx.prevMilestone ctx.content ++
    "\n\n## Packaged Component Versions\n| Component       | Version                                                                                           |\n| --------------- | ------------------------------------------------------------------------------------------------- |\n| Kubernetes      | [" ++
    ctx.k8sVersion ++ "](https://github.com/kubernetes/kubernetes/blob/master/CHANGELOG/CHANGELOG-" ++
    ctx.majorMinor ++ ".md#" ++ ctx.changeLogVersion ++ ") |\n" ++
    "| Etcd            | [" ++ ctx.EtcdVersionRKE2 ++
    "](https://github.com/k3s-io/etcd/releases/tag/" ++ ctx.EtcdVersionRKE2 ++
    ")                       |" ++
    (if ctx.majorMinor = "1.23" then
      "\n| Containerd      | [" ++ ctx.ContainerdVersionGoMod ++
        "](https://github.com/k3s-io/containerd/releases/tag/" ++
        ctx.ContainerdVersionGoMod ++ ")                      |"
    else
      "\n| Containerd      | [" ++ ctx.ContainerdVersionRKE2 ++
        "](https://github.com/k3s-io/containerd/releases/tag/" ++
        ctx.ContainerdVersionRKE2 ++ ")                      |") ++
    "\n| Runc            | [" ++ ctx.RuncVersionRKE2 ++
    "](https://github.com/opencontainers/runc/releases/tag/" ++
    ctx.RuncVersionRKE2 ++ ")                              |\n" ++
    "| Metrics-server  | [" ++ ctx.MetricsServerVersion ++
    "](https://github.com/kubernetes-sigs/metrics-server/releases/tag/" ++
    ctx.MetricsServerVersion ++ ")                   |\n" ++
    "| CoreDNS         | [" ++ ctx.CoreDNSVersion ++
    "](https://github.com/coredns/coredns/releases/tag/" ++
    ctx.CoreDNSVersion ++ ")                                  |\n" ++
    "| Ingress-Nginx   | [" ++ ctx.IngressNginxVersion ++
    "](https://github.com/kubernetes/ingress-nginx/releases/tag/helm-chart-" ++
    ctx.IngressNginxVersion ++ ")                                  |\n" ++
    "| Helm-controller | [" ++ ctx.HelmControllerVersion ++
    "](https://github.com/k3s-io/helm-controller/releases/tag/" ++
    ctx.HelmControllerVersion ++ ")                         |\n" ++
    "\n### Available CNIs\n| Component       | Version                                                                                                                                                                             | FIPS Compliant |\n| --------------- | ----------------------------------------------------------------------------------------------------------------------------------------------------------------------------------- | -------------- |\n" ++
    "| Canal (Default) | [Flannel " ++ ctx.FlannelVersionRKE2 ++
    "](https://github.com/k3s-io/flannel/releases/tag/" ++
    ctx.FlannelVersionRKE2 ++ ")<br/>[Calico " ++ ctx.CanalCalicoVersion ++
    "](https://projectcalico.docs.tigera.io/archive/" ++ canalMM ++
    "/release-notes/#" ++ trimPeriods ctx.CanalCalicoVersion ++
    ") | Yes            |\n" ++
    "| Calico          | [" ++ ctx.CalicoVersion ++
    "](https://projectcalico.docs.tigera.io/archive/" ++ calicoMM ++
    "/release-notes/#" ++ trimPeriods ctx.CalicoVersion ++
    ")                                                                    | No             |\n" ++
    "| Cilium          | [" ++ ctx.CiliumVersion ++
    "](https://github.com/cilium/cilium/releases/tag/" ++ ctx.CiliumVersion ++
    ")                                                                                                                      | No             |\n" ++
    "| Multus          | [" ++ ctx.MultusVersion ++
    "](https://github.com/k8snetworkplumbingwg/multus-cni/releases/tag/" ++
    ctx.MultusVersion ++
    ")                                                                                                    | No             |\n" ++
    "\n## Known Issues\n\n- [#1447](https://github.com/rancher/rke2/issues/1447) - When restoring RKE2 from backup to a new node, you should ensure that all pods are stopped following the initial restore:\n\n```bash\ncurl -sfL https://get.rke2.io | sudo INSTALL_RKE2_VERSION=" ++
    ctx.milestone ++
    "\nrke2 server \\\n  --cluster-reset \\\n  --cluster-reset-restore-path=<PATH-TO-SNAPSHOT> --token <token used in the original cluster>\nrke2-killall.sh\nsystemctl enable rke2-server\nsystemctl start rke2-server\n```\n\n## Helpful Links\n\nAs always, we welcome and appreciate feedback from our community of users. Please feel free to:\n- [Open issues here](https://github.com/rancher/rke2/issues/new)\n- [Join our Slack channel](https://slack.rancher.io/)\n- [Check out our documentation](https://docs.rke2.io) for guidance on how to get started.\n"

/-- `tmpl.ExecuteTemplate(buf, repo, ...)`: the document template is chosen
by the repository name; an unknown name is a template-execution error. -/
def executeTemplate (repo : String) (ctx : RenderContext) :
    Except String String :=
  if repo = "rke2" then renderRKE2 ctx
  else if repo = "k3s" then .ok (renderK3s ctx)
  else if repo = "changelog" then
    .ok (renderChangelog ctx.prevMilestone ctx.content)
  else .error ("no template " ++ repo)

/-! ### Version context builder (`GenReleaseNotes`) -/

/-- The bundle of source-specific resolvers `GenReleaseNotes` invokes.
Each one performs network requests, so the bundle is a parameter of the
embedded builder; the argument orders match the Go functions
(`name, repo, branchVersion`). -/
structure Resolvers where
  goModLibVersion : String → String → String → String
  buildScriptVersion : String → String → String → String
  dockerfileVersion : String → String → String → String
  imageTagVersion : String → String → String → String
  sqliteVersionBinding : String → String

/-- The RC-suffix handling of `GenReleaseNotes` (lines 70-77): find the
first occurrence of "-rc" and splice out the four runes starting there.
When fewer than four runes remain from that index the rune-slice expression
`tmpMilestone[idx+4:]` is out of range — a runtime panic, modelled as
`none`. -/
def milestoneNoRCOpt (milestone : String) : Option String :=
  match firstIdxOfSub ['-', 'r', 'c'] milestone.data with
  | none => some milestone
  | some idx =>
    if idx + 4 ≤ milestone.data.length then
      some (String.mk (milestone.data.take idx ++ milestone.data.drop (idx + 4)))
    else none

/-- The context `GenReleaseNotes` assembles (lines 70-121; the Go local
variables `k8sVersion`, `markdownVersion`, `sqliteVersionK3S`, ... are
inlined).  `none` models the two runtime panics on this path: the RC splice
above, and `tmp[1]` when the bare version contains no period (the split on
"." yields fewer than two elements). -/
def buildContext (rs : Resolvers) (repo milestone prevMilestone : String)
    (content : List ChangelogEntry) : Option RenderContext :=
  match milestoneNoRCOpt milestone with
  | none => none
  | some milestoneNoRC =>
    match goSplitS (goReplaceAll ((goSplitS milestoneNoRC "+").headD "") "v" "") "." with
    | t0 :: t1 :: _ =>
      some {
        milestone := milestoneNoRC
        prevMilestone := prevMilestone
        changeLogSince := goReplaceAll ((goSplitS prevMilestone "+").headD "") "." ""
        content := content
        k8sVersion := (goSplitS milestoneNoRC "+").headD ""
        changeLogVersion := goReplaceAll ((goSplitS milestoneNoRC "+").headD "") "." ""
        majorMinor := t0 ++ "." ++ t1
        EtcdVersionRKE2 := rs.buildScriptVersion "ETCD_VERSION" repo milestone
        EtcdVersionK3S := rs.goModLibVersion "etcd/api/v3" repo milestone
        ContainerdVersionK3S := rs.buildScriptVersion "VERSION_CONTAINERD" repo milestone
        ContainerdVersionGoMod := rs.goModLibVersion "containerd/containerd" repo milestone
        ContainerdVersionRKE2 := rs.dockerfileVersion "hardened-containerd" repo milestone
        RuncVersionGoMod := rs.goModLibVersion "runc" repo milestone
        RuncVersionBuildScript := rs.buildScriptVersion "VERSION_RUNC" repo milestone
        RuncVersionRKE2 := rs.dockerfileVersion "hardened-runc" repo milestone
        CNIPluginsVersion := rs.imageTagVersion "cni-plugins" repo milestone
        MetricsServerVersion := rs.imageTagVersion "metrics-server" repo milestone
        TraefikVersion := rs.imageTagVersion "traefik" repo milestone
        CoreDNSVersion := rs.imageTagVersion "coredns" repo milestone
        IngressNginxVersion := rs.dockerfileVersion "rke2-ingress-nginx" repo milestone
        HelmControllerVersion := rs.goModLibVersion "helm-controller" repo milestone
        FlannelVersionRKE2 := rs.imageTagVersion "flannel" repo milestone
        FlannelVersionK3S := rs.goModLibVersion "flannel" repo milestone
        CalicoVersion := rs.imageTagVersion "calico-node" repo milestone
        CanalCalicoVersion := rs.imageTagVersion "hardened-calico" repo milestone
        CiliumVersion := rs.imageTagVersion "cilium-cilium" repo milestone
        MultusVersion := rs.imageTagVersion "multus-cni" repo milestone
        KineVersion := rs.goModLibVersion "kine" repo milestone
        SQLiteVersion := rs.sqliteVersionBinding (rs.goModLibVersion "go-sqlite3" repo milestone)
        SQLiteVersionReplaced := goReplaceAll
          (rs.sqliteVersionBinding (rs.goModLibVersion "go-sqlite3" repo milestone)) "." "_"
        LocalPathProvisionerVersion := rs.imageTagVersion "local-path-provisioner" repo milestone }
    | _ => none

/-- `GenReleaseNotes` from the source: retrieve the changelog (passed here
as an already-computed `Except`, the retrieval being an external
collaborator), build the context, execute the document template named by
the repository.  The outer `Option` is `none` exactly on the runtime-panic
paths of `buildContext`. -/
def GenReleaseNotes (rs : Resolvers) (repo milestone prevMilestone : String)
    (contentResult : Except String (List ChangelogEntry)) :
    Option (Except String String) :=
  match contentResult with
  | .error e => some (.error e)
  | .ok content =>
    match buildContext rs repo milestone prevMilestone content with
    | none => none
    | some ctx => some (executeTemplate repo ctx)

/-! ### Concrete instantiations used by the theorems below -/

/-- Resolver bundle whose outputs record their arguments, so equalities
about the built context show which branch reference each resolver call
received. -/
def rsW : Resolvers := {
  goModLibVersion := fun lib repo branch => "gomod:" ++ lib ++ ":" ++ repo ++ ":" ++ branch
  buildScriptVersion := fun v repo branch => "build:" ++ v ++ ":" ++ repo ++ ":" ++ branch
  dockerfileVersion := fun c repo branch => "docker:" ++ c ++ ":" ++ repo ++ ":" ++ branch
  imageTagVersion := fun i repo branch => "image:" ++ i ++ ":" ++ repo ++ ":" ++ branch
  sqliteVersionBinding := fun v => "sqlite:" ++ v }

/-- The context built for the RC milestone `v1.2.3-rc1+k3s1`. -/
def c1ctxW : RenderContext :=
  (buildContext rsW "k3s" "v1.2.3-rc1+k3s1" "v1.2.2+k3s1" []).getD default

/-- Resolver bundle of the end-to-end scenario: every resolver reports "not
found" (empty), except the dependency-manifest resolver asked for "kine",
which reports `v0.9.0`. -/
def c2rs : Resolvers := {
  goModLibVersion := fun lib _ _ => if lib = "kine" then "v0.9.0" else ""
  buildScriptVersion := fun _ _ _ => ""
  dockerfileVersion := fun _ _ _ => ""
  imageTagVersion := fun _ _ _ => ""
  sqliteVersionBinding := fun _ => "" }

/-- A parsed go.mod carrying both a `replace` and a `require` entry whose
paths contain "kine", with distinct versions. -/
def mfW : ModFile := {
  replace := [{ oldPath := "github.com/k3s-io/kine", newVersion := "v0.9.9" }]
  require := [{ path := "github.com/k3s-io/kine", version := "v0.9.1" }] }

/-- A fetch-and-parse world serving `mfW` at the k3s go.mod URL. -/
def fpW : String → Option ModFile :=
  fun url => if url = goModURL "k3s" "v1.25.3+k3s1" then some mfW else none

/-- A fetched body with two lines, neither containing the marker used in
the pattern-extractor theorem. -/
def fetchC5 : String → Option String := fun _ => some "abc\ndef"

/-- A regexp engine that would report a submatch on every line — the
extractor must never consult it when no line contains the marker. -/
def matchRegexW : String → String → List String := fun _ line => [line, "BOOM"]

/-- A fetch world serving the image list line of the image-manifest
scenario at the k3s image-list URL. -/
def fetchC6 : String → Option String := fun url =>
  if url = "https://raw.githubusercontent.com/k3s-io/k3s/v1.25.3+k3s1/scripts/airgap/image-list.txt"
  then some "cni-plugins:v1.2.3-build20220101" else none

/-- An org resolver that always succeeds. -/
def orgW : String → Except GoErr String := fun _ => .ok "rancher"

/-- A release lookup: `v1` exists, `v2` is a 404, anything else is a
non-`ErrorResponse` error. -/
def getW : String → String → String → GetReleaseResult := fun _ _ tag =>
  if tag = "v1" then .found { assets := [] }
  else if tag = "v2" then .errorResponse 404
  else .otherError "boom"

/-- A release lookup whose releases all carry exactly 50 assets. -/
def get50 : String → String → String → GetReleaseResult := fun _ _ _ =>
  .found { assets := List.replicate 50 { id := 0 } }

/-- A release lookup whose releases all carry 49 assets. -/
def get49 : String → String → String → GetReleaseResult := fun _ _ _ =>
  .found { assets := List.replicate 49 { id := 0 } }

/-- A release lookup that reports 404 for every tag. -/
def getNotFound : String → String → String → GetReleaseResult :=
  fun _ _ _ => .errorResponse 404

/-- An asset deleter that always succeeds. -/
def delW : String → String → Int → Except GoErr Unit := fun _ _ _ => .ok ()

/-! ### Helper lemmas -/

theorem mapGet_mapSet_self (m : GoMap) (k : String) (v : Bool) :
    mapGet (mapSet m k v) k = some v := by
  induction m with
  | nil => simp [mapSet, mapGet]
  | cons p rest ih =>
    obtain ⟨k', v'⟩ := p
    by_cases h : k' = k
    · subst h; simp [mapSet, mapGet]
    · simp [mapSet, mapGet, h, ih]

theorem mapGet_mapSet_ne (m : GoMap) (k k' : String) (v : Bool)
    (h : k ≠ k') : mapGet (mapSet m k v) k' = mapGet m k' := by
  induction m with
  | nil => simp [mapSet, mapGet, h]
  | cons p rest ih =>
    obtain ⟨a, b⟩ := p
    by_cases ha : a = k
    · subst ha; simp [mapSet, mapGet, h]
    · by_cases ha' : a = k'
      · subst ha'; simp [mapSet, mapGet, ha]
      · simp [mapSet, mapGet, ha, ha', ih]

theorem find?_eq_some_of_mem {α : Type} (p : α → Bool) (l : List α) (x : α)
    (hx : x ∈ l) (hp : p x = true) : ∃ r, l.find? p = some r := by
  induction l with
  | nil => cases hx
  | cons a t ih =>
    by_cases ha : p a = true
    · exact ⟨a, List.find?_cons_of_pos _ ha⟩
    · rcases List.mem_cons.1 hx with rfl | hxt
      · exact absurd hp ha
      · obtain ⟨r, hr⟩ := ih hxt
        exact ⟨r, (List.find?_cons_of_neg _ (by simpa using ha)).trans hr⟩

theorem milestoneNoRCOpt_spec (milestone mNoRC : String) (idx : Nat)
    (hidx : firstIdxOfSub ['-', 'r', 'c'] milestone.data = some idx)
    (h : milestoneNoRCOpt milestone = some mNoRC) :
    mNoRC.data = milestone.data.take idx ++ milestone.data.drop (idx + 4) := by
  unfold milestoneNoRCOpt at h
  rw [hidx] at h
  change (if idx + 4 ≤ milestone.data.length then
    some (String.mk (milestone.data.take idx ++ milestone.data.drop (idx + 4)))
    else none) = some mNoRC at h
  by_cases h4 : idx + 4 ≤ milestone.data.length
  · rw [if_pos h4] at h
    injection h with h
    rw [← h]
  · rw [if_neg h4] at h
    exact Option.noConfusion h

/-! ### Claim theorems -/

/-- C1 counterexample: the claim says that for a milestone with suffix
`-rcN` (N numeric) the displayed milestone is the milestone with that
suffix removed.  For `v1.25.3-rc12` the suffix-removed milestone is
`v1.25.3`, but the code splices out exactly four runes at the first
occurrence of "-rc", producing the displayed milestone `v1.25.32`. -/
theorem C1_counterexample :
    (buildContext rsW "k3s" "v1.25.3-rc12" "v1.25.2" []).map
        RenderContext.milestone = some "v1.25.32"
    ∧ ("v1.25.32" : String) ≠ "v1.25.3" := by
  exact ⟨rfl, by decide⟩

set_option maxRecDepth 100000 in
/-- C2: end-to-end k3s scenario.  With milestone `v1.25.3+k3s1`, previous
milestone `v1.25.2+k3s1` and every resolver returning "not found" except
the dependency-manifest resolver for "kine" returning `v0.9.0`,
`GenReleaseNotes` succeeds (no error, no panic) and the rendered document
contains the Kine table row populated with `v0.9.0` while every other
version-table row renders its empty value in place. -/
theorem C2_end_to_end_k3s :
    GenReleaseNotes c2rs "k3s" "v1.25.3+k3s1" "v1.25.2+k3s1" (Except.ok []) =
      some (Except.ok (
        "<!-- v1.25.3+k3s1 -->\nThis release updates Kubernetes to v1.25.3, and fixes a number of issues.\n\nFor more details on what\x27s new, see the [Kubernetes release notes](https://github.com/kubernetes/kubernetes/blob/master/CHANGELOG/CHANGELOG-1.25.md#changelog-since-v1252).\n\n## Changes since v1.25.2+k3s1:\n\n\n## Embedded Component Versions\n| Component | Version |\n|---|---|\n" ++
        "| Kubernetes | [v1.25.3](https://github.com/kubernetes/kubernetes/blob/master/CHANGELOG/CHANGELOG-1.25.md#v1253) |\n" ++
        "| Kine | [v0.9.0](https://github.com/k3s-io/kine/releases/tag/v0.9.0) |\n" ++
        "| SQLite | [](https://sqlite.org/releaselog/.html) |\n" ++
        "| Etcd | [](https://github.com/k3s-io/etcd/releases/tag/) |\n" ++
        "| Containerd | [](https://github.com/k3s-io/containerd/releases/tag/) |\n" ++
        "| Runc | [](https://github.com/opencontainers/runc/releases/tag/) |\n" ++
        "| Flannel | [](https://github.com/flannel-io/flannel/releases/tag/) | \n" ++
        "| Metrics-server | [](https://github.com/kubernetes-sigs/metrics-server/releases/tag/) |\n" ++
        "| Traefik | [v](https://github.com/traefik/traefik/releases/tag/v) |\n" ++
        "| CoreDNS | [v](https://github.com/coredns/coredns/releases/tag/v) | \n" ++
        "| Helm-controller | [](https://github.com/k3s-io/helm-controller/releases/tag/) |\n" ++
        "| Local-path-provisioner | [](https://github.com/rancher/local-path-provisioner/releases/tag/) |\n" ++
        "\n## Helpful Links\nAs always, we welcome and appreciate feedback from our community of users. Please feel free to:\n- [Open issues here](https://github.com/rancher/k3s/issues/new/choose)\n- [Join our Slack channel](https://slack.rancher.io/)\n- [Check out our documentation](https://rancher.com/docs/k3s/latest/en/) for guidance on how to get started or to dive deep into K3s.\n- [Read how you can contribute here](https://github.com/rancher/k3s/blob/master/CONTRIBUTING.md)\n")) := by
  rfl

/-- C6: an image-manifest line `cni-plugins:v1.2.3-build20220101` queried
for "cni-plugins" yields `v1.2.3`: the regex captures everything after the
colon, the captured value contains the build-suffix marker, so it is split
on "-" and only the prefix before the first hyphen is returned. -/
theorem C6_image_tag_build_suffix :
    imageTagVersion fetchC6 goImageRegexFn "cni-plugins" "k3s" "v1.25.3+k3s1" = "v1.2.3"
    ∧ goImageRegexFn ":(.*)(-build.*)?" "cni-plugins:v1.2.3-build20220101" =
        [":v1.2.3-build20220101", "v1.2.3-build20220101", ""] := by
  exact ⟨rfl, rfl⟩

/-- C9: the major.minor derivation indexes elements 0 and 1 of the split
on "." without a length check.  For milestone `v125+k3s1` the bare version
`125` contains no period, so `tmp[1]` is out of range: `GenReleaseNotes`
hits the runtime panic (modelled `none`) rather than returning an error
value. -/
theorem C9_major_minor_index_panic :
    GenReleaseNotes rsW "k3s" "v125+k3s1" "v1.24.17+k3s1" (Except.ok []) = none := by
  rfl

/-- C10: when `GetReleaseByTag` reports "not found", `ListAssets` and
`DeleteAssetsByRelease` fall through their error switch with a nil release
and dereference it (`release.Assets`): for an existing organization and a
non-empty tag with no matching release both operations hit the nil
dereference (modelled `none`) instead of terminating normally. -/
theorem C10_nil_release_dereference :
    ListAssets orgW getNotFound "rke2" "v1.30.0+rke2r1" = none
    ∧ DeleteAssetsByRelease orgW getNotFound delW "rke2" "v1.30.0+rke2r1" = none := by
  exact ⟨rfl, rfl⟩

/-- C1 (amended): whenever the context builder succeeds on a milestone
containing "-rc" (first occurrence at index `idx`), the displayed milestone
is the milestone with exactly the four characters starting at `idx`
spliced out — which equals the RC suffix removed precisely when the RC
number has a single digit — and every resolver call receives the original,
un-stripped milestone as its branch-reference argument. -/
theorem C1_display_strip_and_resolver_args (rs : Resolvers)
    (repo milestone prevMilestone : String) (content : List ChangelogEntry)
    (ctx : RenderContext) (idx : Nat)
    (hctx : buildContext rs repo milestone prevMilestone content = some ctx)
    (hidx : firstIdxOfSub ['-', 'r', 'c'] milestone.data = some idx) :
    ctx.milestone.data = milestone.data.take idx ++ milestone.data.drop (idx + 4)
    ∧ ctx.EtcdVersionRKE2 = rs.buildScriptVersion "ETCD_VERSION" repo milestone
    ∧ ctx.EtcdVersionK3S = rs.goModLibVersion "etcd/api/v3" repo milestone
    ∧ ctx.ContainerdVersionK3S = rs.buildScriptVersion "VERSION_CONTAINERD" repo milestone
    ∧ ctx.ContainerdVersionGoMod = rs.goModLibVersion "containerd/containerd" repo milestone
    ∧ ctx.ContainerdVersionRKE2 = rs.dockerfileVersion "hardened-containerd" repo milestone
    ∧ ctx.RuncVersionGoMod = rs.goModLibVersion "runc" repo milestone
    ∧ ctx.RuncVersionBuildScript = rs.buildScriptVersion "VERSION_RUNC" repo milestone
    ∧ ctx.RuncVersionRKE2 = rs.dockerfileVersion "hardened-runc" repo milestone
    ∧ ctx.CNIPluginsVersion = rs.imageTagVersion "cni-plugins" repo milestone
    ∧ ctx.MetricsServerVersion = rs.imageTagVersion "metrics-server" repo milestone
    ∧ ctx.TraefikVersion = rs.imageTagVersion "traefik" repo milestone
    ∧ ctx.CoreDNSVersion = rs.imageTagVersion "coredns" repo milestone
    ∧ ctx.IngressNginxVersion = rs.dockerfileVersion "rke2-ingress-nginx" repo milestone
    ∧ ctx.HelmControllerVersion = rs.goModLibVersion "helm-controller" repo milestone
    ∧ ctx.FlannelVersionRKE2 = rs.imageTagVersion "flannel" repo milestone
    ∧ ctx.FlannelVersionK3S = rs.goModLibVersion "flannel" repo milestone
    ∧ ctx.CalicoVersion = rs.imageTagVersion "calico-node" repo milestone
    ∧ ctx.CanalCalicoVersion = rs.imageTagVersion "hardened-calico" repo milestone
    ∧ ctx.CiliumVersion = rs.imageTagVersion "cilium-cilium" repo milestone
    ∧ ctx.MultusVersion = rs.imageTagVersion "multus-cni" repo milestone
    ∧ ctx.KineVersion = rs.goModLibVersion "kine" repo milestone
    ∧ ctx.SQLiteVersion =
        rs.sqliteVersionBinding (rs.goModLibVersion "go-sqlite3" repo milestone)
    ∧ ctx.LocalPathProvisionerVersion =
        rs.imageTagVersion "local-path-provisioner" repo milestone := by
  unfold buildContext at hctx
  split at hctx
  · exact Option.noConfusion hctx
  · rename_i mNoRC heq
    split at hctx
    · rename_i t0 t1 tail heq2
      injection hctx with hc
      subst hc
      exact ⟨milestoneNoRCOpt_spec milestone mNoRC idx hidx heq, rfl, rfl, rfl,
        rfl, rfl, rfl, rfl, rfl, rfl, rfl, rfl, rfl, rfl, rfl, rfl, rfl, rfl,
        rfl, rfl, rfl, rfl, rfl, rfl⟩
    · exact Option.noConfusion hctx

/-- C1 witness: concrete run with single-digit RC milestone
`v1.2.3-rc1+k3s1` ("-rc" first occurs at index 6): the displayed milestone
is the four-character splice (here the full suffix removal `v1.2.3+k3s1`),
and the Kine resolver call received the original milestone. -/
theorem C1_display_strip_witness :
    c1ctxW.milestone.data =
      ("v1.2.3-rc1+k3s1" : String).data.take 6 ++
        ("v1.2.3-rc1+k3s1" : String).data.drop 10
    ∧ c1ctxW.KineVersion = rsW.goModLibVersion "kine" "k3s" "v1.2.3-rc1+k3s1" := by
  have h := C1_display_strip_and_resolver_args rsW "k3s" "v1.2.3-rc1+k3s1"
    "v1.2.2+k3s1" [] c1ctxW 6 (by rfl) (by rfl)
  exact ⟨h.1, h.2.2.2.2.2.2.2.2.2.2.2.2.2.2.2.2.2.2.2.2.2.1⟩

/-- C3: when the fetched-and-parsed go.mod carries both a `replace` entry
and a `require` entry whose module paths contain the queried library name,
`goModLibVersion` returns the version of a matching `replace` entry — the
first one in `replace` order — and not the `require` version. -/
theorem C3_replace_wins (fetchParse : String → Option ModFile)
    (libraryName repo branchVersion : String) (mf : ModFile)
    (hfetch : fetchParse (goModURL repo branchVersion) = some mf)
    (hrep : ∃ r ∈ mf.replace, containsStr r.oldPath libraryName = true)
    (_hreq : ∃ q ∈ mf.require, containsStr q.path libraryName = true) :
    ∃ r, mf.replace.find? (fun r => containsStr r.oldPath libraryName) = some r
      ∧ goModLibVersion fetchParse libraryName repo branchVersion = r.newVersion := by
  obtain ⟨r0, hr0mem, hr0p⟩ := hrep
  obtain ⟨r, hfind⟩ := find?_eq_some_of_mem
    (fun r => containsStr r.oldPath libraryName) mf.replace r0 hr0mem hr0p
  refine ⟨r, hfind, ?_⟩
  unfold goModLibVersion
  rw [hfetch]
  show goModSelect mf libraryName = r.newVersion
  unfold goModSelect
  rw [hfind]

/-- C3 witness: a go.mod with `replace ...kine... => v0.9.9` and
`require ...kine... v0.9.1` resolves "kine" to the replace version. -/
theorem C3_replace_wins_witness :
    goModLibVersion fpW "kine" "k3s" "v1.25.3+k3s1" = "v0.9.9" := by
  obtain ⟨r, hfind, hval⟩ := C3_replace_wins fpW "kine" "k3s" "v1.25.3+k3s1" mfW
    rfl (by decide) (by decide)
  have hlit : mfW.replace.find? (fun r => containsStr r.oldPath "kine") =
      some { oldPath := "github.com/k3s-io/kine", newVersion := "v0.9.9" } := by
    rfl
  rw [hlit] at hfind
  injection hfind with hr
  rw [hval, ← hr]

/-- C5: when no line of the fetched text contains the marker substring,
`findInURL` returns the empty (not-found) result, whatever regular
expression was supplied — the regex engine is never consulted. -/
theorem C5_no_marker_no_match (fetch : String → Option String)
    (matchRegex : String → String → List String) (url regex str text : String)
    (hf : fetch url = some text)
    (h : ∀ line ∈ goLines text, containsStr line str = false) :
    findInURL fetch matchRegex url regex str = [] := by
  unfold findInURL
  rw [hf]
  unfold findInText
  have aux : ∀ (lines : List String),
      (∀ line ∈ lines, containsStr line str = false) →
      findInTextAux matchRegex regex str lines [] = [] := by
    intro lines
    induction lines with
    | nil => intro _; rfl
    | cons l rest ih =>
      intro hl
      have h1 : containsStr l str = false := hl l (by simp)
      simp only [findInTextAux, h1, Bool.false_eq_true, if_false]
      exact ih (fun x hx => hl x (by simp [hx]))
  exact aux (goLines text) h

/-- C5 witness: the two-line body "abc\ndef" contains no line with the
marker "marker"; extraction is empty both for a non-empty regex (with an
engine that would match every line) and for the empty regex. -/
theorem C5_no_marker_witness :
    findInURL fetchC5 matchRegexW "u" "x(y)" "marker" = []
    ∧ findInURL fetchC5 matchRegexW "u" "" "marker" = [] := by
  exact ⟨C5_no_marker_no_match fetchC5 matchRegexW "u" "x(y)" "marker"
      "abc\ndef" rfl (by decide),
    C5_no_marker_no_match fetchC5 matchRegexW "u" "" "marker"
      "abc\ndef" rfl (by decide)⟩

/-- C7: `capitalize` upper-cases only the first letter character of the
string, leaving the leading non-letter characters and everything after the
first letter unchanged; a string with no letter at all is returned
unchanged. -/
theorem C7_capitalize_first_letter (s : String) :
    ((∀ c ∈ s.data, goIsLetter c = false) → capitalize s = s)
    ∧ (∀ (a : List Char) (c : Char) (b : List Char),
        s.data = a ++ c :: b → (∀ x ∈ a, goIsLetter x = false) →
        goIsLetter c = true →
        capitalize s = String.mk (a ++ goToUpper c :: b)) := by
  have aux1 : ∀ (l : List Char), (∀ c ∈ l, goIsLetter c = false) →
      capitalizeAux l = l := by
    intro l
    induction l with
    | nil => intro _; rfl
    | cons c rest ih =>
      intro hl
      have hc : goIsLetter c = false := hl c (by simp)
      simp only [capitalizeAux, hc, Bool.false_eq_true, if_false]
      rw [ih (fun x hx => hl x (by simp [hx]))]
  have aux2 : ∀ (a : List Char) (c : Char) (b : List Char),
      (∀ x ∈ a, goIsLetter x = false) → goIsLetter c = true →
      capitalizeAux (a ++ c :: b) = a ++ goToUpper c :: b := by
    intro a c b ha hc
    induction a with
    | nil => simp [capitalizeAux, hc]
    | cons x rest ih =>
      have hx : goIsLetter x = false := ha x (by simp)
      simp only [List.cons_append, capitalizeAux, hx, Bool.false_eq_true,
        if_false]
      show x :: capitalizeAux (rest ++ c :: b) = x :: (rest ++ goToUpper c :: b)
      rw [ih (fun y hy => ha y (by simp [hy]))]
  constructor
  · intro h
    have : capitalize s = String.mk s.data := by
      unfold capitalize
      rw [aux1 s.data h]
    simpa using this
  · intro a c b hdec ha hc
    unfold capitalize
    rw [hdec, aux2 a c b ha hc]

/-- C7 witness: `"-fix"` becomes `"-Fix"` — the leading hyphen is
preserved and the first letter is upper-cased. -/
theorem C7_capitalize_witness : capitalize "-fix" = "-Fix" := by
  have h := (C7_capitalize_first_letter "-fix").2 ['-'] 'f' ['i', 'x']
    (by decide) (by decide) (by decide)
  rw [h]
  decide

theorem checkLoop_ok (get : String → String → String → GetReleaseResult)
    (org repo : String) (tags : List String)
    (h : ∀ t ∈ tags, isAborting (get org repo t) = false) :
    ∀ m : GoMap, ∃ m', checkUpstreamReleaseLoop get org repo tags m = .ok m'
      ∧ ∀ t : String, mapGet m' t =
          if t ∈ tags then some (releaseFound (get org repo t)) else mapGet m t := by
  induction tags with
  | nil =>
    intro m
    exact ⟨m, rfl, fun t => by simp⟩
  | cons a rest ih =>
    intro m
    have ha : isAborting (get org repo a) = false := h a (by simp)
    have hr : ∀ t ∈ rest, isAborting (get org repo t) = false :=
      fun t ht => h t (by simp [ht])
    cases hga : get org repo a with
    | found rel =>
      obtain ⟨m', hm', hget⟩ := ih hr (mapSet m a true)
      refine ⟨m', ?_, ?_⟩
      · show checkUpstreamReleaseLoop get org repo (a :: rest) m = .ok m'
        simp only [checkUpstreamReleaseLoop, hga]
        exact hm'
      · intro t
        rw [hget t]
        by_cases htr : t ∈ rest
        · simp [htr]
        · by_cases hta : t = a
          · subst hta
            simp [htr, mapGet_mapSet_self, hga, releaseFound]
          · rw [mapGet_mapSet_ne m a t true (fun hh => hta hh.symm)]
            simp [htr, hta]
    | errorResponse status =>
      rw [hga] at ha
      have h404 : status = 404 := by
        simpa [isAborting] using ha
      subst h404
      obtain ⟨m', hm', hget⟩ := ih hr (mapSet m a false)
      refine ⟨m', ?_, ?_⟩
      · show checkUpstreamReleaseLoop get org repo (a :: rest) m = .ok m'
        simp only [checkUpstreamReleaseLoop, hga, if_neg]
        simpa using hm'
      · intro t
        rw [hget t]
        by_cases htr : t ∈ rest
        · simp [htr]
        · by_cases hta : t = a
          · subst hta
            simp [htr, mapGet_mapSet_self, hga, releaseFound]
          · rw [mapGet_mapSet_ne m a t false (fun hh => hta hh.symm)]
            simp [htr, hta]
    | otherError msg =>
      exact absurd ha (by simp [isAborting, hga])

theorem checkLoop_abort (get : String → String → String → GetReleaseResult)
    (org repo tag : String) (post : List String)
    (habort : isAborting (get org repo tag) = true) :
    ∀ (pre : List String) (m : GoMap),
      (∀ t ∈ pre, isAborting (get org repo t) = false) →
      checkUpstreamReleaseLoop get org repo (pre ++ tag :: post) m =
        .error (abortErr (get org repo tag)) := by
  intro pre
  induction pre with
  | nil =>
    intro m _
    cases hga : get org repo tag with
    | found rel => exact absurd habort (by simp [isAborting, hga])
    | errorResponse status =>
      have hne : status ≠ 404 := by
        intro hh
        rw [hga, hh] at habort
        simp [isAborting] at habort
      show checkUpstreamReleaseLoop get org repo (tag :: post) m = _
      simp only [checkUpstreamReleaseLoop, hga, if_pos hne, abortErr]
    | otherError msg =>
      show checkUpstreamReleaseLoop get org repo (tag :: post) m = _
      simp only [checkUpstreamReleaseLoop, hga, abortErr]
  | cons a pre' ih =>
    intro m hpre
    have ha : isAborting (get org repo a) = false := hpre a (by simp)
    have hp' : ∀ t ∈ pre', isAborting (get org repo t) = false :=
      fun t ht => hpre t (by simp [ht])
    cases hga : get org repo a with
    | found rel =>
      show checkUpstreamReleaseLoop get org repo (a :: (pre' ++ tag :: post)) m = _
      simp only [checkUpstreamReleaseLoop, hga]
      exact ih (mapSet m a true) hp'
    | errorResponse status =>
      rw [hga] at ha
      have h404 : status = 404 := by simpa [isAborting] using ha
      subst h404
      show checkUpstreamReleaseLoop get org repo (a :: (pre' ++ tag :: post)) m = _
      simp only [checkUpstreamReleaseLoop, hga, if_neg]
      simpa using ih (mapSet m a false) hp'
    | otherError msg =>
      exact absurd ha (by simp [isAborting, hga])

/-- C8: `CheckUpstreamRelease` over a list of tags: when no lookup produces
an aborting error, the batch succeeds and maps every tag of the list to
`true` when its release exists and to `false` when the lookup was a
"not found" (404) response; and when some tag's lookup produces any other
error, the whole batch returns exactly that error (the tags before it
having aborted no result map). -/
theorem C8_check_upstream_semantics
    (get : String → String → String → GetReleaseResult)
    (org repo : String) (tags : List String) :
    ((∀ t ∈ tags, isAborting (get org repo t) = false) →
      exceptIsOk (CheckUpstreamRelease get org repo tags) = true
      ∧ ∀ t ∈ tags, okGet (CheckUpstreamRelease get org repo tags) t =
          some (releaseFound (get org repo t)))
    ∧ (∀ (pre : List String) (tag : String) (post : List String),
        tags = pre ++ tag :: post →
        (∀ t ∈ pre, isAborting (get org repo t) = false) →
        isAborting (get org repo tag) = true →
        CheckUpstreamRelease get org repo tags =
          .error (abortErr (get org repo tag))) := by
  constructor
  · intro hnone
    obtain ⟨m', hm', hget⟩ := checkLoop_ok get org repo tags hnone []
    have hres : CheckUpstreamRelease get org repo tags = .ok m' := hm'
    constructor
    · rw [hres]; rfl
    · intro t ht
      rw [hres]
      show mapGet m' t = _
      rw [hget t, if_pos ht]
  · intro pre tag post hdec hpre habort
    rw [hdec]
    exact checkLoop_abort get org repo tag post habort pre [] hpre

/-- C8 witness: with a client for which `v1` exists, `v2` is "not found"
and any other tag errors, the two-tag batch yields `true` and `false`, and
a batch containing a third tag aborts with that tag's error. -/
theorem C8_check_upstream_witness :
    okGet (CheckUpstreamRelease getW "rancher" "rke2" ["v1", "v2"]) "v1" = some true
    ∧ okGet (CheckUpstreamRelease getW "rancher" "rke2" ["v1", "v2"]) "v2" = some false
    ∧ CheckUpstreamRelease getW "rancher" "rke2" ["v1", "v2", "v3"] =
        .error (GoErr.other "boom") := by
  refine ⟨?_, ?_, ?_⟩
  · exact ((C8_check_upstream_semantics getW "rancher" "rke2" ["v1", "v2"]).1
      (by decide)).2 "v1" (by decide)
  · exact ((C8_check_upstream_semantics getW "rancher" "rke2" ["v1", "v2"]).1
      (by decide)).2 "v2" (by decide)
  · exact (C8_check_upstream_semantics getW "rancher" "rke2"
      ["v1", "v2", "v3"]).2 ["v1", "v2"] "v3" [] rfl (by decide) (by decide)

/-- C4 counterexample: the claim says an existing "rke2" release whose
asset count differs from 50 gets an explicit `false` in the result map.
With a release of 49 assets for tag `v1`, `VerifyAssets` succeeds but the
result map has no entry at all for `v1`. -/
theorem C4_counterexample :
    okGet (VerifyAssets orgW get49 "rke2" ["v1"]) "v1" = none
    ∧ exceptIsOk (VerifyAssets orgW get49 "rke2" ["v1"]) = true := by
  exact ⟨rfl, rfl⟩

theorem verifyLoop_rke2 (get : String → String → String → GetReleaseResult)
    (org tag : String) (rel : RepositoryRelease)
    (hfound : get org "rke2" tag = .found rel) (htag : tag ≠ "") :
    ∀ (tags : List String) (m : GoMap),
      (∀ t ∈ tags, isAborting (get org "rke2" t) = false) →
      ∃ m', verifyAssetsLoop get org "rke2" tags m = .ok m'
        ∧ mapGet m' tag =
            if tag ∈ tags ∧ rel.assets.length = 50 then some true
            else mapGet m tag := by
  intro tags
  induction tags with
  | nil =>
    intro m _
    exact ⟨m, rfl, by simp⟩
  | cons t rest ih =>
    intro m hab
    have hat : isAborting (get org "rke2" t) = false := hab t (by simp)
    have har : ∀ x ∈ rest, isAborting (get org "rke2" x) = false :=
      fun x hx => hab x (by simp [hx])
    by_cases htt : t = ""
    · subst htt
      obtain ⟨m', hm', hget⟩ := ih m har
      refine ⟨m', ?_, ?_⟩
      · show verifyAssetsLoop get org "rke2" ("" :: rest) m = .ok m'
        simp only [verifyAssetsLoop, if_pos rfl]
        exact hm'
      · rw [hget]
        have hcond : (tag ∈ ("" : String) :: rest ∧ rel.assets.length = 50) ↔
            (tag ∈ rest ∧ rel.assets.length = 50) := by
          simp [List.mem_cons, htag]
        rw [if_congr hcond rfl rfl]
    · cases hgt : get org "rke2" t with
      | found r' =>
        have hstep : verifyAssetsLoop get org "rke2" (t :: rest) m =
            verifyAssetsLoop get org "rke2" rest
              (if r'.assets.length = 50 then mapSet m t true else m) := by
          simp only [verifyAssetsLoop, if_neg htt, hgt]
          by_cases h50 : r'.assets.length = 50 <;> simp [h50]
        by_cases h50 : r'.assets.length = 50
        · rw [if_pos h50] at hstep
          obtain ⟨m', hm', hget⟩ := ih (mapSet m t true) har
          refine ⟨m', hstep.trans hm', ?_⟩
          rw [hget]
          by_cases hta : tag = t
          · subst hta
            have hrel : rel = r' := by
              rw [hfound] at hgt
              injection hgt
            by_cases htr : tag ∈ rest
            · simp [htr, hrel, h50]
            · rw [if_neg (fun hh => htr hh.1)]
              rw [mapGet_mapSet_self]
              rw [if_pos ⟨by simp, by rw [hrel]; exact h50⟩]
          · rw [mapGet_mapSet_ne m t tag true (fun hh => hta hh.symm)]
            have hcond : (tag ∈ t :: rest ∧ rel.assets.length = 50) ↔
                (tag ∈ rest ∧ rel.assets.length = 50) := by
              simp [List.mem_cons, hta]
            rw [if_congr hcond rfl rfl]
        · rw [if_neg h50] at hstep
          obtain ⟨m', hm', hget⟩ := ih m har
          refine ⟨m', hstep.trans hm', ?_⟩
          rw [hget]
          by_cases hta : tag = t
          · subst hta
            have hrel : rel = r' := by
              rw [hfound] at hgt
              injection hgt
            rw [if_neg (fun hh => h50 (hrel ▸ hh.2)),
              if_neg (fun hh => h50 (hrel ▸ hh.2))]
          · have hcond : (tag ∈ t :: rest ∧ rel.assets.length = 50) ↔
                (tag ∈ rest ∧ rel.assets.length = 50) := by
              simp [List.mem_cons, hta]
            rw [if_congr hcond rfl rfl]
      | errorResponse status =>
        rw [hgt] at hat
        have h404 : status = 404 := by simpa [isAborting] using hat
        subst h404
        have htagt : tag ≠ t := by
          intro hh
          rw [hh, hgt] at hfound
          cases hfound
        have hstep : verifyAssetsLoop get org "rke2" (t :: rest) m =
            verifyAssetsLoop get org "rke2" rest (mapSet m t false) := by
          simp only [verifyAssetsLoop, if_neg htt, hgt, if_neg]
          simp
        obtain ⟨m', hm', hget⟩ := ih (mapSet m t false) har
        refine ⟨m', hstep.trans hm', ?_⟩
        rw [hget]
        rw [mapGet_mapSet_ne m t tag false (fun hh => htagt hh.symm)]
        have hcond : (tag ∈ t :: rest ∧ rel.assets.length = 50) ↔
            (tag ∈ rest ∧ rel.assets.length = 50) := by
          simp [List.mem_cons, htagt]
        rw [if_congr hcond rfl rfl]
      | otherError msg =>
        rw [hgt] at hat
        exact absurd hat (by simp [isAborting])

/-- C4 (amended): for a non-empty tag of the batch whose "rke2" release
exists (and no tag of the batch produces an aborting error): exactly 50
assets yields an explicit `true` entry; any other asset count leaves the
tag ABSENT from the result map — no entry at all, rather than the explicit
`false` the claim states. -/
theorem C4_verify_assets_amended (orgF : String → Except GoErr String)
    (get : String → String → String → GetReleaseResult) (org : String)
    (tags : List String) (tag : String) (rel : RepositoryRelease)
    (h0 : orgF "rke2" = .ok org)
    (h1 : tags ≠ [])
    (h2 : tag ∈ tags) (h3 : tag ≠ "")
    (h4 : get org "rke2" tag = .found rel)
    (h5 : ∀ t ∈ tags, isAborting (get org "rke2" t) = false) :
    (rel.assets.length = 50 →
      okGet (VerifyAssets orgF get "rke2" tags) tag = some true)
    ∧ (rel.assets.length ≠ 50 →
      okGet (VerifyAssets orgF get "rke2" tags) tag = none) := by
  have hres : VerifyAssets orgF get "rke2" tags =
      verifyAssetsLoop get org "rke2" tags [] := by
    unfold VerifyAssets
    rw [if_neg (by simpa [List.length_eq_zero] using h1), h0]
  obtain ⟨m', hm', hget⟩ := verifyLoop_rke2 get org tag rel h4 h3 tags [] h5
  rw [hres, hm']
  constructor
  · intro h50
    show mapGet m' tag = some true
    rw [hget, if_pos ⟨h2, h50⟩]
  · intro h50
    show mapGet m' tag = none
    rw [hget, if_neg (fun hh => h50 hh.2)]
    rfl

/-- C4 witness: a tag whose release has exactly 50 assets is reported
`true`; a tag whose release has 49 assets has no entry in the result
map. -/
theorem C4_verify_assets_witness :
    okGet (VerifyAssets orgW get50 "rke2" ["v1"]) "v1" = some true
    ∧ okGet (VerifyAssets orgW get49 "rke2" ["v2"]) "v2" = none := by
  refine ⟨?_, ?_⟩
  · exact (C4_verify_assets_amended orgW get50 "rancher" ["v1"] "v1"
      { assets := List.replicate 50 { id := 0 } } rfl (by decide) (by decide)
      (by decide) rfl (by decide)).1 (by decide)
  · exact (C4_verify_assets_amended orgW get49 "rancher" ["v2"] "v2"
      { assets := List.replicate 49 { id := 0 } } rfl (by decide) (by decide)
      (by decide) rfl (by decide)).2 (by decide)

end EcmRelease
